import Mathlib

/-!
Shallow embedding of `job_alert.py` (job-finder-bot): the interest filter,
the HTML digest renderer, and the orchestrator loop, together with proofs
of the specification claims about them.

Modelling notes.
* A raw job record is a Python dict; the fields the program reads are
  modelled as `Option String` (absent key = `none`).  `dict.get(k, d)`
  is `Option.getD`.
* Python `a or b` on optional strings returns `b` when `a` is `None` or
  the empty string (falsy), else `a`: `pyOr`.
* `html.escape(s, quote)` chains `str.replace` calls (`&` first, then
  `<`, `>`, and when `quote` also `"` and the apostrophe); since the
  replacement texts never contain a character that a later replace
  rewrites beyond the leading `&` already handled, the chain is
  character-wise, and is embedded as the character map `escapeChar`.
* Python substring tests (`k in text`) are `hasSub` on character lists.
* The `for j in jobs:` body in `build_email_html` (source lines 70-93) is
  written at the indentation of the `for` itself, which CPython rejects as
  an IndentationError; the `continue` statement there is only legal inside
  the loop, so the intended parse (loop body indented under the `for`) is
  unambiguous and is what this embedding uses.
-/

set_option maxRecDepth 65536

/-- The nested `detected_extensions` object of a raw job record. -/
structure DetectedExtensions where
  posted_at : Option String
deriving DecidableEq, Repr

/-- A raw job record: the fields of the SerpApi `jobs_results` entries that
`job_alert.py` reads.  Absent dict keys are `none`. -/
structure Job where
  title : Option String := none
  company_name : Option String := none
  description : Option String := none
  location : Option String := none
  detected_extensions : Option DetectedExtensions := none
  apply_link : Option String := none
  link : Option String := none
deriving DecidableEq, Repr

/-- Python `a or b` for two optional strings: `a` unless it is falsy
(`None` or `""`), else `b`. -/
def pyOr (a b : Option String) : Option String :=
  match a with
  | none => b
  | some s => if s = "" then b else some s

/-- One character of `html.escape`: `&`, `<`, `>` always; `"` and the
apostrophe only when `quote` is true. -/
def escapeChar (quote : Bool) (c : Char) : String :=
  if c = '&' then "&amp;"
  else if c = '<' then "&lt;"
  else if c = '>' then "&gt;"
  else if quote && c = '"' then "&quot;"
  else if quote && c = '\'' then "&#x27;"
  else String.singleton c

/-- `html.escape` on a character list. -/
def escapeList (quote : Bool) : List Char → List Char
  | [] => []
  | c :: cs => (escapeChar quote c).data ++ escapeList quote cs

/-- Python `html.escape(s, quote)`. -/
def pyEscape (quote : Bool) (s : String) : String :=
  String.mk (escapeList quote s.data)

/-- Is `n` a leading segment of `h`?  (Helper for substring search.) -/
def leadsList (n : List Char) : List Char → Bool
  | [] => n.isEmpty
  | b :: bs =>
    match n with
    | [] => true
    | a :: as => a == b && leadsList as bs

/-- Substring search on character lists: Python `n in h`. -/
def hasSub (n : List Char) : List Char → Bool
  | [] => n.isEmpty
  | c :: cs => leadsList n (c :: cs) || hasSub n cs

/-- Python `needle in hay` on strings. -/
def strContains (hay needle : String) : Bool :=
  hasSub needle.data hay.data

/-- Python `s.lower()` (character-wise; ASCII range, which covers every
keyword the program compares against). -/
def strLower (s : String) : String :=
  String.mk (s.data.map Char.toLower)

/-- Python `s[:n]`: the first `n` characters (code points) of `s`. -/
def strTake (s : String) (n : Nat) : String :=
  String.mk (s.data.take n)

/-- Python `s.startswith(pre)`. -/
def pyStartsWith (s pre : String) : Bool :=
  leadsList pre.data s.data

/-- Python `" ".join(parts)`. -/
def spaceJoin : List String → String
  | [] => ""
  | [s] => s
  | s :: rest => s ++ " " ++ spaceJoin rest

/-- Declarative substring containment, used on the specification side:
`hay` splits as some text, then `needle`, then some text. -/
def ContainsSub (hay needle : String) : Prop :=
  ∃ p q : String, hay = p ++ needle ++ q

/-- `ENTRY_KEYWORDS` of `job_alert.py`. -/
def ENTRY_KEYWORDS : List String :=
  ["entry level", "junior", "fresher", "new grad", "0-2 years"]

/-- `AI_ML_KEYWORDS` of `job_alert.py`. -/
def AI_ML_KEYWORDS : List String :=
  ["machine learning", "ml engineer", "ai engineer", "deep learning"]

/-- `DJANGO_KEYWORDS` of `job_alert.py`. -/
def DJANGO_KEYWORDS : List String :=
  ["django", "python", "drf", "django rest"]

/-- `FULLSTACK_KEYWORDS` of `job_alert.py`. -/
def FULLSTACK_KEYWORDS : List String :=
  ["full stack", "backend", "frontend", "software engineer"]

/-- The haystack of `matches_interest`:
`" ".join([title, company_name, description]).lower()` with absent fields
read as `""`. -/
def interestText (j : Job) : String :=
  strLower (spaceJoin
    [j.title.getD "", j.company_name.getD "", j.description.getD ""])

/-- `matches_interest` of `job_alert.py`: at least one entry-level keyword
and at least one keyword of the concatenated role lists occur in the
haystack. -/
def matches_interest (j : Job) : Bool :=
  (ENTRY_KEYWORDS.any fun k => strContains (interestText j) k)
    && ((AI_ML_KEYWORDS ++ DJANGO_KEYWORDS ++ FULLSTACK_KEYWORDS).any
          fun k => strContains (interestText j) k)

/-- The haystack as the specification words it: the lowercase text obtained
by concatenating title, company name and description (missing fields as
empty text) joined by spaces. -/
def haystackSpec (j : Job) : String :=
  strLower (j.title.getD "" ++ " " ++ j.company_name.getD "" ++ " "
    ++ j.description.getD "")

/-- The Interest Filter as the specification words it: the haystack
contains at least one entry-level keyword and at least one keyword from
the union of the three role-interest keyword sets. -/
def MatchesInterestSpec (j : Job) : Prop :=
  (∃ k ∈ ENTRY_KEYWORDS, ContainsSub (haystackSpec j) k)
    ∧ ∃ k, (k ∈ AI_ML_KEYWORDS ∨ k ∈ DJANGO_KEYWORDS ∨ k ∈ FULLSTACK_KEYWORDS)
        ∧ ContainsSub (haystackSpec j) k

/-- `link = j.get("apply_link") or j.get("link")` (source line 77). -/
def chosen_link (j : Job) : Option String :=
  pyOr j.apply_link j.link

/-- The renderer's per-item skip condition (source line 78):
`not link or not link.startswith("http")`. -/
def LinkBad : Option String → Prop
  | none => True
  | some l => l = "" ∨ pyStartsWith l "http" = false

instance (o : Option String) : Decidable (LinkBad o) :=
  match o with
  | none => isTrue trivial
  | some l => inferInstanceAs (Decidable (l = "" ∨ pyStartsWith l "http" = false))

/-- The f-string of the list item (source lines 85-93), with the six
interpolated values as arguments. -/
def itemHtml (safe_link title company location date_posted snippet : String) :
    String :=
  "\n    <li>\n      <strong><a href=\"" ++ safe_link
    ++ "\" target=\"_blank\" rel=\"noopener noreferrer\">" ++ title
    ++ "</a></strong><br/>\n      <em>Company:</em> " ++ company
    ++ "<br/>\n      <em>Location:</em> " ++ location
    ++ "<br/>\n      <em>Posted:</em> " ++ date_posted
    ++ "<br/>\n      <p>" ++ snippet
    ++ "</p><br/>\n    </li>\n    "

/-- One iteration of the rendering loop of `build_email_html` (source
lines 70-93): `none` when the record is skipped for lack of a usable
link, otherwise the list-item text. -/
def renderItem (j : Job) : Option String :=
  let title := pyEscape true (j.title.getD "N/A")
  let company := pyEscape true (j.company_name.getD "")
  let location := pyEscape true (j.location.getD "")
  let date_posted :=
    ((j.detected_extensions.getD { posted_at := none }).posted_at).getD "N/A"
  match chosen_link j with
  | none => none
  | some link =>
    if link = "" ∨ pyStartsWith link "http" = false then none
    else
      let safe_link := pyEscape true link
      let snippet := pyEscape true (strTake (j.description.getD "") 250)
      some (itemHtml safe_link title company location date_posted snippet)

/-- The list item `renderItem` emits for record `j` and chosen link `l`:
the template applied to the escaped title, company, location, link and
truncated description, and the raw posted-date text. -/
def itemOf (j : Job) (l : String) : String :=
  itemHtml (pyEscape true l)
    (pyEscape true (j.title.getD "N/A"))
    (pyEscape true (j.company_name.getD ""))
    (pyEscape true (j.location.getD ""))
    (((j.detected_extensions.getD { posted_at := none }).posted_at).getD "N/A")
    (pyEscape true (strTake (j.description.getD "") 250))

/-- The list items the rendering loop actually emits, in input order. -/
def renderedItems (jobs : List Job) : List String :=
  jobs.filterMap renderItem

/-- `build_email_html` of `job_alert.py`. -/
def build_email_html (jobs : List Job) : String :=
  if jobs.isEmpty then "<p>No new relevant jobs found today.</p>"
  else
    String.intercalate "\n"
      (["<h2>🚀 Job Finder Results</h2>",
        "<p>Click the job title to open the application link in your browser.</p>",
        "<ul>"]
        ++ renderedItems jobs ++ ["</ul>"])

/-- The job count interpolated into the email subject and the final
status line (source lines 126 and 128): `len(jobs_collected)`. -/
def subjectCount (jobs : List Job) : Nat :=
  jobs.length

/-- Modelled from the spec: a "well-formed absolute HTTP(S) URL" (§3,
Accepted Job Record) — the source has no such check, so the notion is
taken from the spec's words, minimally: the text is an absolute URL with
scheme `http` or `https`. -/
def isAbsHttpUrl (s : String) : Bool :=
  pyStartsWith s "http://" || pyStartsWith s "https://"

/-- A record whose nested posted-date text carries HTML markup; its links
are valid, so the renderer emits an item for it. -/
def jobPostedAtHtml : Job :=
  { title := some "Engineer", company_name := some "Acme",
    description := some "desc", location := some "Remote",
    detected_extensions := some { posted_at := some "<b>now</b>" },
    apply_link := some "https://example.com/a" }

/-- A record whose apply link starts with `http` yet is no URL at all. -/
def jobHttpOnly : Job :=
  { apply_link := some "httpjunk" }

/-- A record the Interest Filter accepts but that carries no link field. -/
def jobNoLink : Job :=
  { title := some "junior python dev",
    description := some "entry level python role" }

/-- A renderable record with a short description. -/
def jobShortDesc : Job :=
  { description := some "short description",
    apply_link := some "http://example.org/job" }

/-- A record with an apply link that is present but empty. -/
def jobEmptyApply : Job :=
  { apply_link := some "", link := some "https://fallback.example" }

/-- The message `main` prints when a search call raises (source line 123):
`f"Error fetching {query} in {loc}: {e}"`. -/
def logLine (query loc err : String) : String :=
  "Error fetching " ++ query ++ " in " ++ loc ++ ": " ++ err

/-- One `(query, loc)` iteration of the orchestrator loop (source lines
117-123): a search call either succeeds with a list of raw records or
raises with a message.  On success the records passing the Interest
Filter are appended to the accumulated jobs; on an exception a log line
is recorded and the loop continues. -/
def fetchPair (fetch : String → String → Except String (List Job))
    (acc : List Job × List String) (query loc : String) :
    List Job × List String :=
  match fetch query loc with
  | Except.ok results =>
    (acc.1 ++ results.filter (fun j => matches_interest j), acc.2)
  | Except.error e => (acc.1, acc.2 ++ [logLine query loc e])

/-- The nested `for query in JOB_QUERY_TERMS: for loc in LOCATIONS:` loop
of `main` (source lines 114-123), accumulating `jobs_collected` and the
error lines printed along the way. -/
def collectJobs (fetch : String → String → Except String (List Job))
    (queries locations : List String) : List Job × List String :=
  queries.foldl
    (fun acc query =>
      locations.foldl (fun a loc => fetchPair fetch a query loc) acc)
    ([], [])

/-- The filter-accepted records one search call contributes: the records
of a successful call that pass the Interest Filter, in API-result order;
nothing on a failed call. -/
def pairJobs (fetch : String → String → Except String (List Job))
    (query loc : String) : List Job :=
  match fetch query loc with
  | Except.ok results => results.filter (fun j => matches_interest j)
  | Except.error _ => []

/-- The log lines one search call contributes: nothing on success, the
error line on a failure. -/
def pairLogs (fetch : String → String → Except String (List Job))
    (query loc : String) : List String :=
  match fetch query loc with
  | Except.ok _ => []
  | Except.error e => [logLine query loc e]

/-- Modelled from the spec (§3, Digest): the accepted records in
discovery order — term-major over the query terms, location-minor over
the locations, API-result order within each call. -/
def discoveryOrder (fetch : String → String → Except String (List Job))
    (queries locations : List String) : List Job :=
  queries.flatMap fun q => locations.flatMap fun l => pairJobs fetch q l

/-- The error lines of a whole run, in pair order. -/
def allLogs (fetch : String → String → Except String (List Job))
    (queries locations : List String) : List String :=
  queries.flatMap fun q => locations.flatMap fun l => pairLogs fetch q l

/-- The same source of records with every failing call replaced by an
empty successful one. -/
def patchFetch (fetch : String → String → Except String (List Job)) :
    String → String → Except String (List Job) :=
  fun query loc =>
    match fetch query loc with
    | Except.ok results => Except.ok results
    | Except.error _ => Except.ok []

/-- The configuration values `main` and its callees consult.
`max_results` and `min_days_old` correspond to `MAX_RESULTS` and
`MIN_DAYS_OLD` (source lines 30-31), which are read from the environment
but never used afterwards. -/
structure Config where
  serpapi_key : Option String
  email_user : Option String
  email_to : Option String
  query_terms : List String
  locations : List String
  max_results : Nat
  min_days_old : Nat
deriving DecidableEq

/-- The network activity of a run: one HTTP search per `(query, loc)`
pair, and the final SMTP send with its sender, recipient, subject and
HTML body. -/
inductive NetEvent where
  | http (query loc : String)
  | smtp (user recipient : Option String) (subject body : String)
deriving DecidableEq

/-- What a completed run produces: the email subject, the HTML body, the
per-pair error lines printed, and the final status line. -/
structure RunOutput where
  subject : String
  html_body : String
  logs : List String
  printed : String
deriving DecidableEq

/-- The email subject of `main` (source line 126):
`f"[Job Alert] {len(jobs_collected)} jobs found — {date}"`. -/
def runSubject (jobs : List Job) (today : String) : String :=
  "[Job Alert] " ++ toString (subjectCount jobs) ++ " jobs found — " ++ today

/-- The final status line of `main` (source line 128). -/
def runPrinted (jobs : List Job) : String :=
  "✅ Email sent with " ++ toString (subjectCount jobs) ++ " job(s)."

/-- The output of a run that got past the API-key check. -/
def runOutputOf (cfg : Config)
    (fetch : String → String → Except String (List Job)) (today : String) :
    RunOutput :=
  { subject := runSubject (collectJobs fetch cfg.query_terms cfg.locations).1 today,
    html_body := build_email_html (collectJobs fetch cfg.query_terms cfg.locations).1,
    logs := (collectJobs fetch cfg.query_terms cfg.locations).2,
    printed := runPrinted (collectJobs fetch cfg.query_terms cfg.locations).1 }

/-- `main` of `job_alert.py` (source lines 110-128): fails on a missing
(falsy) API key before any network call; otherwise sweeps the
term×location pairs, renders the digest, and sends it by SMTP.  The
second component lists the network calls made, in order. -/
def mainRun (cfg : Config)
    (fetch : String → String → Except String (List Job)) (today : String) :
    Except String RunOutput × List NetEvent :=
  match cfg.serpapi_key with
  | none => (Except.error "❌ Missing SERPAPI_API_KEY in environment.", [])
  | some key =>
    if key = "" then
      (Except.error "❌ Missing SERPAPI_API_KEY in environment.", [])
    else
      (Except.ok (runOutputOf cfg fetch today),
       (cfg.query_terms.flatMap fun q => cfg.locations.map (NetEvent.http q))
         ++ [NetEvent.smtp cfg.email_user cfg.email_to
               (runOutputOf cfg fetch today).subject
               (runOutputOf cfg fetch today).html_body])

/-- The truthiness test `if not SERPAPI_KEY` passes: the key is set and
non-empty. -/
def KeyPresent (cfg : Config) : Prop :=
  cfg.serpapi_key ≠ none ∧ cfg.serpapi_key ≠ some ""

/-- A fully populated demo configuration. -/
def cfgDemo : Config :=
  { serpapi_key := some "key123", email_user := some "me@example.com",
    email_to := some "dest@example.com",
    query_terms := ["django developer"], locations := ["Remote", "India"],
    max_results := 25, min_days_old := 4 }

/-- The demo configuration with the API key unset. -/
def cfgNoKey : Config :=
  { cfgDemo with serpapi_key := none }

/-- A record source that times out for the `Remote` location and finds
one linkless matching job elsewhere. -/
def fetchDemo : String → String → Except String (List Job) :=
  fun _ loc =>
    if loc = "Remote" then Except.error "timeout" else Except.ok [jobNoLink]

theorem leadsList_iff (n h : List Char) :
    leadsList n h = true ↔ ∃ t, h = n ++ t := by
  induction n generalizing h with
  | nil =>
    cases h <;> simp [leadsList]
  | cons a as ih =>
    cases h with
    | nil => simp [leadsList]
    | cons b bs =>
      simp only [leadsList, Bool.and_eq_true, beq_iff_eq, ih, List.cons_append,
        List.cons.injEq]
      constructor
      · rintro ⟨rfl, t, rfl⟩; exact ⟨t, rfl, rfl⟩
      · rintro ⟨t, rfl, rfl⟩; exact ⟨rfl, t, rfl⟩

theorem hasSub_iff (n h : List Char) :
    hasSub n h = true ↔ ∃ p q, h = p ++ n ++ q := by
  induction h with
  | nil =>
    simp only [hasSub, List.isEmpty_iff]
    constructor
    · rintro rfl; exact ⟨[], [], rfl⟩
    · rintro ⟨p, q, hpq⟩
      rcases List.append_eq_nil.mp (List.append_eq_nil.mp hpq.symm).1 with ⟨-, h2⟩
      exact h2
  | cons c cs ih =>
    simp only [hasSub, Bool.or_eq_true, leadsList_iff, ih]
    constructor
    · rintro (⟨t, ht⟩ | ⟨p, q, hpq⟩)
      · exact ⟨[], t, by simpa using ht⟩
      · exact ⟨c :: p, q, by simp [hpq]⟩
    · rintro ⟨p, q, hpq⟩
      cases p with
      | nil => exact Or.inl ⟨q, by simpa using hpq⟩
      | cons x xs =>
        simp only [List.cons_append, List.cons.injEq] at hpq
        exact Or.inr ⟨xs, q, hpq.2⟩

theorem strData_append (s t : String) : (s ++ t).data = s.data ++ t.data := rfl

theorem strContains_iff (hay needle : String) :
    strContains hay needle = true ↔ ContainsSub hay needle := by
  unfold strContains ContainsSub
  rw [hasSub_iff]
  constructor
  · rintro ⟨p, q, hpq⟩
    refine ⟨String.mk p, String.mk q, ?_⟩
    apply String.ext
    simpa [strData_append] using hpq
  · rintro ⟨p, q, rfl⟩
    exact ⟨p.data, q.data, by simp [strData_append]⟩

theorem interestText_eq_haystackSpec (j : Job) :
    interestText j = haystackSpec j := by
  unfold interestText haystackSpec
  apply congrArg
  apply String.ext
  simp [spaceJoin, strData_append]

/-- C1: the Interest Filter accepts a record iff the lowercase haystack
(title, company name, description joined by spaces, missing fields empty)
contains at least one entry-level keyword and at least one keyword from
the union of the AI/ML, Django/Python and full-stack keyword sets, by
plain substring containment. -/
theorem matches_interest_correct (j : Job) :
    matches_interest j = true ↔ MatchesInterestSpec j := by
  unfold matches_interest MatchesInterestSpec
  rw [interestText_eq_haystackSpec]
  simp only [Bool.and_eq_true, List.any_eq_true, strContains_iff, List.mem_append]
  constructor
  · rintro ⟨⟨k1, hk1, hc1⟩, k2, hk2, hc2⟩
    refine ⟨⟨k1, hk1, hc1⟩, k2, ?_, hc2⟩
    rcases hk2 with (h | h) | h
    · exact Or.inl h
    · exact Or.inr (Or.inl h)
    · exact Or.inr (Or.inr h)
  · rintro ⟨⟨k1, hk1, hc1⟩, k2, hk2, hc2⟩
    refine ⟨⟨k1, hk1, hc1⟩, k2, ?_, hc2⟩
    rcases hk2 with h | h | h
    · exact Or.inl (Or.inl h)
    · exact Or.inl (Or.inr h)
    · exact Or.inr h

theorem strContains_self (x : String) : strContains x x = true := by
  rw [strContains_iff]
  exact ⟨"", "", String.ext (by simp [strData_append])⟩

theorem strContains_appendL (g : String) {hay x : String}
    (h : strContains hay x = true) : strContains (g ++ hay) x = true := by
  rw [strContains_iff] at h ⊢
  obtain ⟨p, q, rfl⟩ := h
  exact ⟨g ++ p, q, String.ext (by simp [strData_append])⟩

theorem strContains_appendR (g : String) {hay x : String}
    (h : strContains hay x = true) : strContains (hay ++ g) x = true := by
  rw [strContains_iff] at h ⊢
  obtain ⟨p, q, rfl⟩ := h
  exact ⟨p, q ++ g, String.ext (by simp [strData_append])⟩

theorem itemHtml_contains (a t c l d s : String) :
    strContains (itemHtml a t c l d s) a = true
      ∧ strContains (itemHtml a t c l d s) t = true
      ∧ strContains (itemHtml a t c l d s) c = true
      ∧ strContains (itemHtml a t c l d s) l = true
      ∧ strContains (itemHtml a t c l d s) d = true
      ∧ strContains (itemHtml a t c l d s) s = true := by
  refine ⟨?_, ?_, ?_, ?_, ?_, ?_⟩ <;> unfold itemHtml <;>
    repeat
      first
      | exact strContains_appendL _ (strContains_self _)
      | apply strContains_appendR

theorem renderItem_of_none {j : Job} (hc : chosen_link j = none) :
    renderItem j = none := by
  unfold renderItem
  rw [hc]

theorem renderItem_skips {j : Job} {l : String} (hc : chosen_link j = some l)
    (hb : l = "" ∨ pyStartsWith l "http" = false) : renderItem j = none := by
  unfold renderItem
  rw [hc]
  show (if l = "" ∨ pyStartsWith l "http" = false then none
        else some (itemOf j l)) = none
  rw [if_pos hb]

theorem renderItem_emits {j : Job} {l : String} (hc : chosen_link j = some l)
    (hb : ¬(l = "" ∨ pyStartsWith l "http" = false)) :
    renderItem j = some (itemOf j l) := by
  unfold renderItem
  rw [hc]
  show (if l = "" ∨ pyStartsWith l "http" = false then none
        else some (itemOf j l)) = some (itemOf j l)
  rw [if_neg hb]

theorem renderItem_eq_some {j : Job} {s : String} (h : renderItem j = some s) :
    ∃ l, chosen_link j = some l
      ∧ ¬(l = "" ∨ pyStartsWith l "http" = false)
      ∧ s = itemOf j l := by
  cases hc : chosen_link j with
  | none => rw [renderItem_of_none hc] at h; exact absurd h (by simp)
  | some l =>
    by_cases hb : l = "" ∨ pyStartsWith l "http" = false
    · rw [renderItem_skips hc hb] at h; exact absurd h (by simp)
    · rw [renderItem_emits hc hb] at h
      exact ⟨l, rfl, hb, (Option.some.inj h).symm⟩

theorem escapeChar_no_special (c : Char) :
    ((escapeChar true c).data.all fun a => !(a == '<') && !(a == '"')) = true := by
  unfold escapeChar
  split
  · decide
  split
  · decide
  split
  · decide
  split
  · decide
  split
  · decide
  rename_i h1 h2 h3 h4 h5
  simp only [Bool.true_and, decide_eq_true_eq] at h4
  simp [String.singleton, List.all, h2, h4]

theorem escapeList_no_special (l : List Char) :
    ((escapeList true l).all fun a => !(a == '<') && !(a == '"')) = true := by
  induction l with
  | nil => rfl
  | cons c cs ih =>
    simp only [escapeList, List.all_append, Bool.and_eq_true]
    exact ⟨escapeChar_no_special c, ih⟩

theorem pyEscape_no_special (s : String) :
    ((pyEscape true s).data.all fun a => !(a == '<') && !(a == '"')) = true :=
  escapeList_no_special s.data

theorem length_filterMap_lt {α β : Type} (f : α → Option β) :
    ∀ (l : List α) (a : α), a ∈ l → f a = none →
      (l.filterMap f).length < l.length := by
  intro l
  induction l with
  | nil => intro a ha _; exact absurd ha (List.not_mem_nil a)
  | cons x xs ih =>
    intro a ha hfa
    rcases List.mem_cons.mp ha with rfl | hmem
    · rw [List.filterMap_cons_none hfa, List.length_cons]
      exact Nat.lt_succ_of_le (List.length_filterMap_le f xs)
    · cases hfx : f x with
      | none =>
        rw [List.filterMap_cons_none hfx, List.length_cons]
        exact Nat.lt_succ_of_lt (ih a hmem hfa)
      | some b =>
        rw [List.filterMap_cons_some hfx, List.length_cons, List.length_cons]
        exact Nat.succ_lt_succ (ih a hmem hfa)

/-- C2: a record that passes the Interest Filter but whose chosen link
(apply link, else generic link) is empty or does not start with `http`
produces no list item, while the subject-line count (`len(jobs_collected)`)
still counts it, so the count exceeds the number of rendered items. -/
theorem filtered_but_unrendered_counted (jobs : List Job) (j : Job)
    (hmem : j ∈ jobs) (hacc : matches_interest j = true)
    (hbad : LinkBad (chosen_link j)) :
    renderItem j = none
      ∧ (renderedItems jobs).length < subjectCount jobs := by
  have hnone : renderItem j = none := by
    cases hc : chosen_link j with
    | none => exact renderItem_of_none hc
    | some l =>
      have hb : LinkBad (some l) := hc ▸ hbad
      exact renderItem_skips hc hb
  exact ⟨hnone, length_filterMap_lt renderItem jobs j hmem hnone⟩

theorem filtered_but_unrendered_counted_witness :
    renderItem jobNoLink = none
      ∧ (renderedItems [jobNoLink]).length < subjectCount [jobNoLink] :=
  filtered_but_unrendered_counted [jobNoLink] jobNoLink (by simp)
    (by decide) (by decide)

/-- C3 counterexample: the posted-date text is interpolated into the
list item raw — for a record whose `detected_extensions.posted_at` is
`"<b>now</b>"` the rendered item contains `<b>now</b>` unescaped and does
not contain its escaped form, refuting the claim that every interpolated
per-item field (the posted-date string included) is HTML-escaped. -/
theorem posted_date_unescaped_cex :
    (renderItem jobPostedAtHtml).isSome = true
      ∧ strContains ((renderItem jobPostedAtHtml).getD "") "<b>now</b>" = true
      ∧ strContains ((renderItem jobPostedAtHtml).getD "")
          "&lt;b&gt;now&lt;/b&gt;" = false := by
  decide

/-- C3 amended: escaped text never contains a raw `<` or `"`, and every
rendered list item interpolates the HTML-escaped title, company name,
location, anchor href and description snippet — but the posted-date
string is interpolated raw, without escaping. -/
theorem render_fields_escaped_except_date :
    (∀ s : String,
        ((pyEscape true s).data.all fun a => !(a == '<') && !(a == '"')) = true)
      ∧ ∀ (j : Job) (s : String), renderItem j = some s →
          strContains s (pyEscape true (j.title.getD "N/A")) = true
          ∧ strContains s (pyEscape true (j.company_name.getD "")) = true
          ∧ strContains s (pyEscape true (j.location.getD "")) = true
          ∧ strContains s (pyEscape true ((chosen_link j).getD "")) = true
          ∧ strContains s (pyEscape true (strTake (j.description.getD "") 250)) = true
          ∧ strContains s
              (((j.detected_extensions.getD { posted_at := none }).posted_at).getD "N/A")
              = true := by
  refine ⟨pyEscape_no_special, ?_⟩
  intro j s h
  obtain ⟨l, hc, hb, rfl⟩ := renderItem_eq_some h
  rw [hc]
  simp only [Option.getD_some]
  unfold itemOf
  obtain ⟨h1, h2, h3, h4, h5, h6⟩ :=
    itemHtml_contains (pyEscape true l)
      (pyEscape true (j.title.getD "N/A"))
      (pyEscape true (j.company_name.getD ""))
      (pyEscape true (j.location.getD ""))
      (((j.detected_extensions.getD { posted_at := none }).posted_at).getD "N/A")
      (pyEscape true (strTake (j.description.getD "") 250))
  exact ⟨h2, h3, h4, h1, h6, h5⟩

theorem render_fields_escaped_except_date_witness :
    strContains ((renderItem jobPostedAtHtml).getD "")
        (pyEscape true (jobPostedAtHtml.title.getD "N/A")) = true :=
  (render_fields_escaped_except_date.2 jobPostedAtHtml
    ((renderItem jobPostedAtHtml).getD "") rfl).1

/-- C4 counterexample: a record whose apply link is `"httpjunk"` — not a
well-formed absolute HTTP(S) URL — is nevertheless rendered, since the
renderer only tests `startswith("http")`. -/
theorem rendered_link_not_wellformed_cex :
    (renderItem jobHttpOnly).isSome = true
      ∧ isAbsHttpUrl ((chosen_link jobHttpOnly).getD "") = false := by
  decide

/-- C4 amended: the renderer emits a list item for a record exactly when
its chosen link (apply link, else generic link) is present, non-empty and
starts with `http` — a plain-text test, not well-formed-URL validation. -/
theorem rendered_iff_link_http_nonempty (j : Job) :
    (renderItem j).isSome = true
      ↔ ∃ l, chosen_link j = some l ∧ l ≠ "" ∧ pyStartsWith l "http" = true := by
  constructor
  · intro h
    obtain ⟨s, hs⟩ := Option.isSome_iff_exists.mp h
    obtain ⟨l, hc, hb, -⟩ := renderItem_eq_some hs
    push_neg at hb
    exact ⟨l, hc, hb.1, Bool.ne_false_iff.mp hb.2⟩
  · rintro ⟨l, hc, hne, hsw⟩
    rw [renderItem_emits hc (by simp [hne, hsw])]
    rfl

/-- C5: every rendered list item contains the snippet obtained by first
truncating the raw description to 250 characters and then HTML-escaping
it; and truncate-then-escape is not escape-then-truncate — the escaped
snippet can be longer than 250 characters. -/
theorem snippet_truncate_then_escape :
    (∀ (j : Job) (s : String), renderItem j = some s →
        strContains s (pyEscape true (strTake (j.description.getD "") 250)) = true)
      ∧ ∃ d : String,
          250 < (pyEscape true (strTake d 250)).length
            ∧ pyEscape true (strTake d 250) ≠ strTake (pyEscape true d) 250 := by
  constructor
  · intro j s h
    obtain ⟨l, -, -, rfl⟩ := renderItem_eq_some h
    unfold itemOf
    exact (itemHtml_contains _ _ _ _ _ _).2.2.2.2.2
  · exact ⟨String.mk (List.replicate 251 '&'), by decide, by decide⟩

theorem snippet_truncate_then_escape_witness :
    strContains ((renderItem jobShortDesc).getD "")
        (pyEscape true (strTake (jobShortDesc.description.getD "") 250)) = true :=
  snippet_truncate_then_escape.1 jobShortDesc
    ((renderItem jobShortDesc).getD "") rfl

/-- C10: when the `apply_link` field is absent or present-but-empty, the
renderer's chosen link falls back to the generic `link` field: Python
`or` triggers on falsiness (emptiness), not only absence. -/
theorem apply_link_empty_falls_back (j : Job)
    (h : j.apply_link = none ∨ j.apply_link = some "") :
    chosen_link j = j.link := by
  unfold chosen_link pyOr
  rcases h with h | h <;> rw [h] <;> simp

theorem apply_link_empty_falls_back_witness :
    chosen_link jobEmptyApply = jobEmptyApply.link :=
  apply_link_empty_falls_back jobEmptyApply (Or.inr rfl)

theorem locFold_eq (fetch : String → String → Except String (List Job))
    (q : String) (ls : List String) :
    ∀ acc : List Job × List String,
      ls.foldl (fun a loc => fetchPair fetch a q loc) acc
        = (acc.1 ++ ls.flatMap fun l => pairJobs fetch q l,
           acc.2 ++ ls.flatMap fun l => pairLogs fetch q l) := by
  induction ls with
  | nil => intro acc; simp
  | cons l ls ih =>
    intro acc
    rw [List.foldl_cons, ih]
    cases hf : fetch q l with
    | ok r => simp [fetchPair, pairJobs, pairLogs, hf]
    | error e => simp [fetchPair, pairJobs, pairLogs, hf]

theorem collectJobs_eq (fetch : String → String → Except String (List Job))
    (queries locations : List String) :
    collectJobs fetch queries locations
      = (discoveryOrder fetch queries locations,
         allLogs fetch queries locations) := by
  unfold collectJobs discoveryOrder allLogs
  have main : ∀ (qs : List String) (acc : List Job × List String),
      qs.foldl
          (fun acc query =>
            locations.foldl (fun a loc => fetchPair fetch a query loc) acc)
          acc
        = (acc.1 ++ qs.flatMap fun q => locations.flatMap fun l => pairJobs fetch q l,
           acc.2 ++ qs.flatMap fun q => locations.flatMap fun l => pairLogs fetch q l) := by
    intro qs
    induction qs with
    | nil => intro acc; simp
    | cons q qs ih =>
      intro acc
      rw [List.foldl_cons, locFold_eq, ih]
      simp
  simpa using main queries ([], [])

theorem pairJobs_patchFetch (fetch : String → String → Except String (List Job))
    (q l : String) : pairJobs (patchFetch fetch) q l = pairJobs fetch q l := by
  unfold pairJobs patchFetch
  cases fetch q l <;> rfl

/-- C6: the accumulated accepted-job sequence of the orchestrator loop is
exactly the flat sequence in discovery order — term-major over the query
terms, location-minor over the locations, and API-result order within
each successful call — with each filter-passing record appearing exactly
once (the digest renders this sequence in order). -/
theorem collect_discovery_order
    (fetch : String → String → Except String (List Job))
    (queries locations : List String) :
    (collectJobs fetch queries locations).1
      = discoveryOrder fetch queries locations := by
  rw [collectJobs_eq]

/-- C7: when the API key is present, a run completes and sends a digest
whatever the per-pair failures: the collected jobs coincide with those of
the failure-free patched source (each failing pair contributes zero
records), the printed log lines are exactly the error lines of the
failing pairs, and `mainRun` returns a successful output whose HTML body
is the digest of the collected jobs, ending with the SMTP send. -/
theorem pair_failure_isolated (cfg : Config)
    (fetch : String → String → Except String (List Job)) (today : String)
    (h : KeyPresent cfg) :
    (collectJobs fetch cfg.query_terms cfg.locations).1
        = (collectJobs (patchFetch fetch) cfg.query_terms cfg.locations).1
      ∧ (collectJobs fetch cfg.query_terms cfg.locations).2
          = (cfg.query_terms.flatMap fun q =>
              cfg.locations.flatMap fun l => pairLogs fetch q l)
      ∧ ∃ out : RunOutput,
          mainRun cfg fetch today
            = (Except.ok out,
               (cfg.query_terms.flatMap fun q =>
                  cfg.locations.map (NetEvent.http q))
                 ++ [NetEvent.smtp cfg.email_user cfg.email_to
                       out.subject out.html_body])
            ∧ out.html_body
                = build_email_html
                    ((collectJobs fetch cfg.query_terms cfg.locations).1)
            ∧ out.logs = (collectJobs fetch cfg.query_terms cfg.locations).2 := by
  refine ⟨?_, ?_, ?_⟩
  · rw [collectJobs_eq, collectJobs_eq]
    unfold discoveryOrder
    simp [pairJobs_patchFetch]
  · rw [collectJobs_eq]
    rfl
  · obtain ⟨hne, hne2⟩ := h
    cases hsk : cfg.serpapi_key with
    | none => exact absurd hsk hne
    | some key =>
      have hkey : ¬key = "" := by
        intro hk
        exact hne2 (hk ▸ hsk)
      refine ⟨runOutputOf cfg fetch today, ?_, rfl, rfl⟩
      unfold mainRun
      rw [hsk]
      show (if key = "" then
              (Except.error "❌ Missing SERPAPI_API_KEY in environment.", [])
            else
              (Except.ok (runOutputOf cfg fetch today),
               (cfg.query_terms.flatMap fun q =>
                  cfg.locations.map (NetEvent.http q))
                 ++ [NetEvent.smtp cfg.email_user cfg.email_to
                       (runOutputOf cfg fetch today).subject
                       (runOutputOf cfg fetch today).html_body])) = _
      rw [if_neg hkey]

theorem pair_failure_isolated_witness :
    (collectJobs fetchDemo cfgDemo.query_terms cfgDemo.locations).1
      = (collectJobs (patchFetch fetchDemo) cfgDemo.query_terms cfgDemo.locations).1 :=
  (pair_failure_isolated cfgDemo fetchDemo "2026-02-03"
    ⟨by decide, by decide⟩).1

/-- C8: with the API key configuration absent, the run fails with the
configuration error and the network trace is empty — no HTTP search and
no SMTP call happens. -/
theorem missing_key_aborts_before_network (cfg : Config)
    (fetch : String → String → Except String (List Job)) (today : String)
    (h : cfg.serpapi_key = none) :
    mainRun cfg fetch today
      = (Except.error "❌ Missing SERPAPI_API_KEY in environment.", []) := by
  unfold mainRun
  rw [h]

theorem missing_key_aborts_before_network_witness :
    mainRun cfgNoKey fetchDemo "2026-02-03"
      = (Except.error "❌ Missing SERPAPI_API_KEY in environment.", []) :=
  missing_key_aborts_before_network cfgNoKey fetchDemo "2026-02-03" rfl

/-- C9: changing only `MAX_RESULTS` and/or `MIN_DAYS_OLD` changes nothing
observable: the run result (digest, subject count, logs, status line) and
the network trace are identical — the two values are never applied by any
pipeline stage. -/
theorem unused_config_no_effect (cfg : Config) (m d : Nat)
    (fetch : String → String → Except String (List Job)) (today : String) :
    mainRun { cfg with max_results := m, min_days_old := d } fetch today
      = mainRun cfg fetch today := by
  cases cfg
  rfl
